import Mathlib

/-!
Shallow embedding of `face_detection.py` (class `FaceDetection`).

Modelling conventions:
* Pixel buffers (`numpy` arrays produced and consumed through `cv2`) are modelled
  by `Buf`: a color buffer is a row-major grid of BGR triples, a grayscale buffer
  a grid of single intensities.  `numpy` basic slicing `frame[a:b, c:d]` is
  modelled by `npSlice2D` with the clamping semantics of Python slices.
* `cv2.cvtColor(-, COLOR_BGR2GRAY)` is modelled by `cvtColorBGR2GRAY` using the
  fixed-point luma formula of OpenCV; what the claims use is that the result is
  a single-channel buffer and that the conversion is per-buffer.
* `cv2.putText` and `cv2.rectangle` mutate pixels of the full frame in ways the
  program never reads back; they are modelled as a trace of drawing calls
  (`frame_ops`) recorded next to the pixel buffer, carrying the exact arguments
  the code passes (positions, font, scale in tenths, BGR color, thickness).
* `cv2.imwrite` is modelled as a trace of filesystem writes (`writes`), each
  carrying the joined path and the written buffer.
* Python object identity of the crop-record dicts and of the crop list matters
  to the spec (in-place mutation, no-copy return), so those two kinds of
  objects live in an explicit heap: `Heap.dicts` is the store of crop records
  (a dict address is an index), `Heap.lists` the store of list objects, each a
  list of dict addresses.  `FaceDetection.items_frames` holds the address of
  the list object currently bound to `self.items_frames`.  The region list
  `self.items` is only ever rebound to freshly built lists of immutable tuples,
  so it is kept as a plain value.
* Wall-clock reads (`datetime.datetime.now()`) and the remote face-detection
  response are passed in as explicit parameters.
-/

namespace FaceReco

/-- A pixel buffer: `color` is height × width of BGR triples (3 channels),
`gray` is height × width of single intensities (1 channel). -/
inductive Buf where
  | color (data : List (List (Nat × Nat × Nat)))
  | gray (data : List (List Nat))
deriving DecidableEq

/-- True when the buffer is single-channel grayscale. -/
def isGray : Buf → Bool
  | .color _ => false
  | .gray _ => true

/-- Clamp one bound of a Python slice `l[a:b]` to a sequence of length `n`:
negative indices count from the end, everything is clamped into `[0, n]`. -/
def npClampIdx (n : Nat) (i : Int) : Nat :=
  if i < 0 then (n + i).toNat else min i.toNat n

/-- Python / numpy basic slicing `l[a:b]` with step 1. -/
def npSlice1 {α : Type} (l : List α) (a b : Int) : List α :=
  let s := npClampIdx l.length a
  let e := npClampIdx l.length b
  (l.drop s).take (e - s)

/-- numpy slicing `buf[r1:r2, c1:c2]` on a 2-d pixel buffer. -/
def npSlice2D (buf : Buf) (r1 r2 c1 c2 : Int) : Buf :=
  match buf with
  | .color d => .color ((npSlice1 d r1 r2).map (fun row => npSlice1 row c1 c2))
  | .gray d => .gray ((npSlice1 d r1 r2).map (fun row => npSlice1 row c1 c2))

/-- OpenCV fixed-point BGR to luma conversion of one pixel:
`(1868*B + 9617*G + 4899*R + 8192) >> 14`. -/
def bgr2gray (p : Nat × Nat × Nat) : Nat :=
  (1868 * p.1 + 9617 * p.2.1 + 4899 * p.2.2 + 8192) / 16384

/-- Model of `cv2.cvtColor(-, cv2.COLOR_BGR2GRAY)`: a color buffer becomes the
single-channel luma buffer; a buffer that is already grayscale is returned
unchanged (the program only applies the conversion to color crops). -/
def cvtColorBGR2GRAY : Buf → Buf
  | .color d => .gray (d.map (fun row => row.map bgr2gray))
  | .gray d => .gray d

/-- One recorded `cv2` drawing call on the full frame.  `fontScaleTenths` holds
ten times the float font scale (the code only uses 1.2 and 0.8, both exact in
tenths); colors are BGR triples. -/
inductive DrawOp where
  | putText (text : String) (org : Int × Int) (fontFace : Nat)
      (fontScaleTenths : Nat) (color : Nat × Nat × Nat) (thickness : Nat)
  | rectangle (pt1 pt2 : Int × Int) (color : Nat × Nat × Nat) (thickness : Nat)
deriving DecidableEq

/-- The `cv2.FONT_HERSHEY_SIMPLEX` constant. -/
def FONT_HERSHEY_SIMPLEX : Nat := 0

/-- One recorded `cv2.imwrite` call: destination path and written buffer. -/
structure FileWrite where
  path : String
  data : Buf
deriving DecidableEq

/-- Model of `os.path.join(a, b)` for two components (POSIX). -/
def pathJoin (a b : String) : String :=
  if b.startsWith "/" then b
  else if a = "" then b
  else if a.endsWith "/" then a ++ b
  else a ++ "/" ++ b

/-- A wall-clock instant as `datetime.datetime` exposes it to `strftime`. -/
structure DateTime where
  year : Nat
  month : Nat
  day : Nat
  hour : Nat
  minute : Nat
  second : Nat
  microsecond : Nat
deriving DecidableEq

/-- Exactly `w` decimal digit characters: the last `w` digits of `n`,
zero-padded on the left. -/
def padDigits : Nat → Nat → List Char
  | 0, _ => []
  | w + 1, n => padDigits w (n / 10) ++ [Char.ofNat (48 + n % 10)]

/-- Zero-padding of a decimal field as Python `strftime` does it: for an
in-range value, exactly `w` digits; a too-large value falls back to its full
decimal representation. -/
def zeroPad (w n : Nat) : String :=
  if n < 10 ^ w then String.mk (padDigits w n) else toString n

/-- Model of `datetime.now().strftime("%Y%m%d-%H%M%S-%f")`, the run prefix
computed in `__init__`. -/
def strftimeFmt (t : DateTime) : String :=
  zeroPad 4 t.year ++ zeroPad 2 t.month ++ zeroPad 2 t.day ++ "-" ++
  zeroPad 2 t.hour ++ zeroPad 2 t.minute ++ zeroPad 2 t.second ++ "-" ++
  zeroPad 6 t.microsecond

/-- A detected region tuple `(x, y, w, h)` as built by `find_items`. -/
structure Region where
  x : Int
  y : Int
  w : Int
  h : Int
deriving DecidableEq

/-- One vertex of a bounding polygon in the detection-service response. -/
structure Vertex where
  x_coordinate : Int
  y_coordinate : Int
deriving DecidableEq

/-- The bounding polygon of one face result. -/
structure Bounds where
  vertices : List Vertex
deriving DecidableEq

/-- One face result of the remote detection service. -/
structure Face where
  bounds : Bounds
deriving DecidableEq

/-- One crop record, the dict
`{"frame": ..., "x": ..., "y": ..., "w": ..., "h": ...}`
built by `extract_items_frames`. -/
structure ItemRec where
  frame : Buf
  x : Int
  y : Int
  w : Int
  h : Int
deriving DecidableEq

/-- Fallback record used when dereferencing an address that is not allocated
(never reached from states the program builds). -/
def itemRecDefault : ItemRec := ⟨Buf.gray [], 0, 0, 0, 0⟩

/-- The heap of Python objects whose identity the program relies on: crop-record
dicts and crop-list objects.  An address is an index; allocation appends. -/
structure Heap where
  dicts : List ItemRec
  lists : List (List Nat)
deriving DecidableEq

/-- The state of one `FaceDetection` pipeline object.  `items_frames` is the
address of the list object bound to `self.items_frames`; `frame_ops` is the
trace of drawing calls applied to the full frame; `writes` the trace of
`cv2.imwrite` calls. -/
structure FaceDetection where
  image_path : String
  archive_folder : String
  debug : Bool
  items : List Region
  items_frames : Nat
  images_pref : String
  frame : Buf
  frame_ops : List DrawOp
  heap : Heap
  writes : List FileWrite
deriving DecidableEq

/-- Model of `FaceDetection.__init__`: records the constructor parameters,
starts with an empty region list and a freshly allocated empty crop list,
captures the run prefix from the construction-time clock and loads the image
(`imread_result` stands for the decoded buffer `cv2.imread` returned). -/
def init (image_path : String) (archive_folder : String := "/tmp/")
    (debug : Bool := false) (now : DateTime) (imread_result : Buf) :
    FaceDetection :=
  { image_path := image_path
    archive_folder := archive_folder
    debug := debug
    items := []
    items_frames := 0
    images_pref := strftimeFmt now
    frame := imread_result
    frame_ops := []
    heap := ⟨[], [[]]⟩
    writes := [] }

/-- Reading `face.bounds.vertices[i]` out of a service response, as an option
(`none` models the `IndexError` a too-short vertex list would raise). -/
def vertexAt (face : Face) (i : Nat) : Option Vertex :=
  face.bounds.vertices[i]?

/-- The loop body of `find_items` for one face: vertex 0 is the top-left
corner, vertex 2 the bottom-right one, the appended tuple is
`(x1, y1, x2 - x1, y2 - y1)`. -/
def faceToItem (face : Face) : Option Region := do
  let v0 ← vertexAt face 0
  let v2 ← vertexAt face 2
  pure ⟨v0.x_coordinate, v0.y_coordinate,
        v2.x_coordinate - v0.x_coordinate, v2.y_coordinate - v0.y_coordinate⟩

/-- The `for face in faces` loop of `find_items`, building the local `items`
list in response order. -/
def itemsOfFaces : List Face → Option (List Region)
  | [] => some []
  | face :: rest => do
      let r ← faceToItem face
      let rs ← itemsOfFaces rest
      pure (r :: rs)

/-- Model of `find_items`: the service response is passed in as `faces`; on
success `self.items` is rebound to the freshly built list, nothing else in the
object is touched.  `none` models a raised `IndexError` (the assignment at the
end is then never reached). -/
def find_items (s : FaceDetection) (faces : List Face) : Option FaceDetection :=
  (itemsOfFaces faces).map (fun items => { s with items := items })

/-- Total description of `faceToItem` on well-formed responses, for stating
results: out-of-range vertices default to the origin. -/
def regionOfFaceD (face : Face) : Region :=
  let v0 := (vertexAt face 0).getD ⟨0, 0⟩
  let v2 := (vertexAt face 2).getD ⟨0, 0⟩
  ⟨v0.x_coordinate, v0.y_coordinate,
   v2.x_coordinate - v0.x_coordinate, v2.y_coordinate - v0.y_coordinate⟩

/-- The crop records `extract_items_frames` builds from the current region
list and frame: for a region `(x, y, w, h)` the stored buffer is the slice
`frame[y:y+h, x:x+w]` and the coordinates are copied over verbatim. -/
def cropRecs (s : FaceDetection) : List ItemRec :=
  s.items.map (fun f =>
    ⟨npSlice2D s.frame f.y (f.y + f.h) f.x (f.x + f.w), f.x, f.y, f.w, f.h⟩)

/-- Model of `extract_items_frames`: allocates one fresh dict per region and a
fresh list object holding their addresses in region order, then rebinds
`self.items_frames` to that list. -/
def extract_items_frames (s : FaceDetection) : FaceDetection :=
  let recs := cropRecs s
  let base := s.heap.dicts.length
  let addrs := (List.range recs.length).map (fun i => base + i)
  { s with
    heap := ⟨s.heap.dicts ++ recs, s.heap.lists ++ [addrs]⟩
    items_frames := s.heap.lists.length }

/-- The list object stored at address `a`. -/
def listAt (s : FaceDetection) (a : Nat) : List Nat :=
  (s.heap.lists[a]?).getD []

/-- The crop record stored at dict address `a`. -/
def derefDict (s : FaceDetection) (a : Nat) : ItemRec :=
  (s.heap.dicts[a]?).getD itemRecDefault

/-- The crop records currently reachable from `self.items_frames`, in list
order. -/
def derefItems (s : FaceDetection) : List ItemRec :=
  (listAt s s.items_frames).map (derefDict s)

/-- In-place update of the dict `item_frame["frame"] = cvtColor(...)`. -/
def cvtRec (r : ItemRec) : ItemRec :=
  { r with frame := cvtColorBGR2GRAY r.frame }

/-- Update of one heap cell, a no-op out of range. -/
def listModify {α : Type} (l : List α) (i : Nat) (f : α → α) : List α :=
  match l[i]? with
  | some v => l.set i (f v)
  | none => l

/-- Model of `get_items_frames`.  With `grayscale = False` it returns the very
list object bound to `self.items_frames`, touching nothing.  With
`grayscale = True` it walks that list, overwrites each referenced dict's
`"frame"` field with its grayscale conversion, collects the same dict
addresses into a freshly allocated list object and returns that new list's
address. -/
def get_items_frames (s : FaceDetection) (grayscale : Bool := false) :
    FaceDetection × Nat :=
  match grayscale with
  | false => (s, s.items_frames)
  | true =>
    let addrs := listAt s s.items_frames
    let dicts := addrs.foldl (fun ds a => listModify ds a cvtRec) s.heap.dicts
    ({ s with heap := ⟨dicts, s.heap.lists ++ [addrs]⟩ }, s.heap.lists.length)

/-- Model of `add_label`: moves the label up by 5 pixels unless it would leave
the image (`y <= 11`), then records the `cv2.putText` call at `(x+40, y)`,
font `FONT_HERSHEY_SIMPLEX`, scale 1.2, green, thickness 4. -/
def add_label (s : FaceDetection) (text : String) (x y : Int) : FaceDetection :=
  let y := if y > 11 then y - 5 else y
  { s with frame_ops := s.frame_ops ++
      [DrawOp.putText text (x + 40, y) FONT_HERSHEY_SIMPLEX 12 (0, 255, 0) 4] }

/-- The filename `"{0}_item_{1}.jpg".format(images_pref, idx)`. -/
def itemImageName (pref : String) (idx : Nat) : String :=
  pref ++ "_item_" ++ toString idx ++ ".jpg"

/-- The `for item_frame in self.items_frames` loop of `archive_items_frames`
with its running index `idx`, as the list of writes it performs. -/
def archiveItemsLoop (folder pref : String) (idx : Nat) :
    List ItemRec → List FileWrite
  | [] => []
  | r :: rest =>
      ⟨pathJoin folder (itemImageName pref idx), r.frame⟩ ::
        archiveItemsLoop folder pref (idx + 1) rest

/-- Model of `archive_items_frames`: writes each stored crop buffer, in list
order, under `archive_folder` with the sequential item filenames. -/
def archive_items_frames (s : FaceDetection) : FaceDetection :=
  { s with writes :=
      s.writes ++ archiveItemsLoop s.archive_folder s.images_pref 0 (derefItems s) }

/-- Model of `archive_with_items`: draws a 3px green rectangle for every
detected region, stamps the current locale-formatted date-time (`nowStr`,
the value of `datetime.now().strftime("%c")`) at `(5, 25)` in black, scale
0.8, thickness 3, then writes the full frame to `<images_pref>_full.jpg`
under `archive_folder`. -/
def archive_with_items (s : FaceDetection) (nowStr : String) : FaceDetection :=
  { s with
    frame_ops := s.frame_ops ++
      s.items.map (fun f =>
        DrawOp.rectangle (f.x, f.y) (f.x + f.w, f.y + f.h) (0, 255, 0) 3) ++
      [DrawOp.putText nowStr (5, 25) FONT_HERSHEY_SIMPLEX 8 (0, 0, 0) 3]
    writes := s.writes ++
      [⟨pathJoin s.archive_folder (s.images_pref ++ "_full.jpg"), s.frame⟩] }

/-- Well-formedness of the reachable crop list: the stored list address is
allocated, the dict addresses it holds are distinct and allocated.  Every
state the program builds satisfies this. -/
def wf (s : FaceDetection) : Bool :=
  decide (s.items_frames < s.heap.lists.length) &&
  decide (listAt s s.items_frames).Nodup &&
  (listAt s s.items_frames).all (fun a => decide (a < s.heap.dicts.length))

/-- A sample construction-time clock value. -/
def tSample : DateTime := ⟨2026, 10, 12, 1, 2, 3, 45⟩

/-- A sample 3 × 3 color frame, as decoded by the loader. -/
def bufSample : Buf :=
  Buf.color [[(1, 2, 3), (4, 5, 6), (7, 8, 9)],
             [(10, 11, 12), (13, 14, 15), (16, 17, 18)],
             [(19, 20, 21), (22, 23, 24), (25, 26, 27)]]

/-- A freshly constructed sample pipeline object. -/
def sInit : FaceDetection := init "img.jpg" "/tmp/" false tSample bufSample

/-- A sample service response face with a 4-vertex bounding polygon. -/
def faceSample : Face := ⟨⟨[⟨0, 0⟩, ⟨2, 0⟩, ⟨2, 2⟩, ⟨0, 2⟩]⟩⟩

/-- The sample object after `find_items` returned the sample face. -/
def sFound : FaceDetection := { sInit with items := [regionOfFaceD faceSample] }

/-- A sample object holding two detected regions. -/
def sDetected : FaceDetection :=
  { sInit with items := [⟨0, 0, 2, 2⟩, ⟨1, 1, 1, 1⟩] }

/-- The sample object after `extract_items_frames`. -/
def sExtracted : FaceDetection := extract_items_frames sDetected

/-! ### Helper lemmas -/

theorem range_map_getD {α : Type} (l : List α) (d : α) :
    (List.range l.length).map (fun i => (l[i]?).getD d) = l := by
  apply List.ext_getElem?
  intro i
  rw [List.getElem?_map]
  by_cases h : i < l.length
  · rw [List.getElem?_range h]
    simp [List.getElem?_eq_getElem h]
  · have hr : (List.range l.length)[i]? = (none : Option Nat) :=
      List.getElem?_eq_none (by simpa using Nat.le_of_not_lt h)
    rw [hr, List.getElem?_eq_none (Nat.le_of_not_lt h)]
    simp

theorem derefItems_extract (s : FaceDetection) :
    derefItems (extract_items_frames s) = cropRecs s := by
  have h1 : listAt (extract_items_frames s) (extract_items_frames s).items_frames
      = (List.range (cropRecs s).length).map (fun i => s.heap.dicts.length + i) := by
    simp [listAt, extract_items_frames, List.getElem?_concat_length]
  rw [derefItems, h1, List.map_map]
  have h2 : ∀ i, derefDict (extract_items_frames s) (s.heap.dicts.length + i)
      = ((cropRecs s)[i]?).getD itemRecDefault := by
    intro i
    rw [derefDict]
    show (((s.heap.dicts ++ cropRecs s)[s.heap.dicts.length + i]?).getD itemRecDefault) = _
    rw [List.getElem?_append_right (Nat.le_add_right _ _), Nat.add_sub_cancel_left]
  calc ((List.range (cropRecs s).length).map
          (derefDict (extract_items_frames s) ∘ fun i => s.heap.dicts.length + i))
      = (List.range (cropRecs s).length).map
          (fun i => ((cropRecs s)[i]?).getD itemRecDefault) :=
        List.map_congr_left (fun i _ => h2 i)
    _ = cropRecs s := range_map_getD _ _

theorem listModify_length {α : Type} (l : List α) (i : Nat) (f : α → α) :
    (listModify l i f).length = l.length := by
  rw [listModify]
  cases h : l[i]? with
  | none => rfl
  | some v => simp [List.length_set]

theorem getElem?_listModify_ne {α : Type} (l : List α) (i j : Nat) (f : α → α)
    (h : i ≠ j) : (listModify l i f)[j]? = l[j]? := by
  rw [listModify]
  cases hv : l[i]? with
  | none => rfl
  | some v => exact List.getElem?_set_ne h

theorem getElem?_listModify_self {α : Type} (l : List α) (i : Nat) (f : α → α) :
    (listModify l i f)[i]? = (l[i]?).map f := by
  rw [listModify]
  cases hv : l[i]? with
  | none => simp [hv]
  | some v =>
    have hlt : i < l.length := by
      by_contra hge
      rw [List.getElem?_eq_none (Nat.le_of_not_lt hge)] at hv
      cases hv
    rw [List.getElem?_set_eq_of_lt _ hlt]
    simp [hv]

theorem foldl_listModify_not_mem {α : Type} (f : α → α) (addrs : List Nat)
    (l : List α) (b : Nat) (hb : b ∉ addrs) :
    (addrs.foldl (fun ds a => listModify ds a f) l)[b]? = l[b]? := by
  induction addrs generalizing l with
  | nil => rfl
  | cons a rest ih =>
    rw [List.foldl_cons]
    have hba : a ≠ b := fun h => hb (h ▸ List.mem_cons_self a rest)
    rw [ih _ (fun h => hb (List.mem_cons_of_mem a h)),
        getElem?_listModify_ne _ _ _ _ hba]

theorem foldl_listModify_mem {α : Type} (f : α → α) (addrs : List Nat)
    (l : List α) (b : Nat) (hnd : addrs.Nodup) (hb : b ∈ addrs) :
    (addrs.foldl (fun ds a => listModify ds a f) l)[b]? = (l[b]?).map f := by
  induction addrs generalizing l with
  | nil => cases hb
  | cons a rest ih =>
    rw [List.foldl_cons]
    rcases List.mem_cons.mp hb with hba | hbr
    · subst hba
      have hnr : b ∉ rest := (List.nodup_cons.mp hnd).1
      rw [foldl_listModify_not_mem _ _ _ _ hnr, getElem?_listModify_self]
    · have hba : a ≠ b := fun h => (List.nodup_cons.mp hnd).1 (h ▸ hbr)
      rw [ih _ (List.nodup_cons.mp hnd).2 hbr,
          getElem?_listModify_ne _ _ _ _ hba]

theorem wf_unpack (s : FaceDetection) (h : wf s = true) :
    s.items_frames < s.heap.lists.length ∧ (listAt s s.items_frames).Nodup ∧
      ∀ a ∈ listAt s s.items_frames, a < s.heap.dicts.length := by
  simp only [wf, Bool.and_eq_true, decide_eq_true_eq, List.all_eq_true] at h
  exact ⟨h.1.1, h.1.2, fun a ha => by simpa using h.2 a ha⟩

theorem get_true_fst (s : FaceDetection) :
    (get_items_frames s true).1 =
      { s with heap :=
          ⟨(listAt s s.items_frames).foldl (fun ds a => listModify ds a cvtRec)
              s.heap.dicts,
            s.heap.lists ++ [listAt s s.items_frames]⟩ } := rfl

theorem get_true_snd (s : FaceDetection) :
    (get_items_frames s true).2 = s.heap.lists.length := rfl

theorem listAt_get_true_old (s : FaceDetection) (a : Nat)
    (h : a < s.heap.lists.length) :
    listAt (get_items_frames s true).1 a = listAt s a := by
  rw [get_true_fst, listAt, listAt]
  show ((s.heap.lists ++ [listAt s s.items_frames])[a]?).getD [] = _
  rw [List.getElem?_append_left h]
  rfl

theorem listAt_get_true_new (s : FaceDetection) :
    listAt (get_items_frames s true).1 (get_items_frames s true).2
      = listAt s s.items_frames := by
  rw [get_true_fst, get_true_snd, listAt]
  show ((s.heap.lists ++ [listAt s s.items_frames])[s.heap.lists.length]?).getD []
      = _
  rw [List.getElem?_concat_length]
  rfl

theorem derefDict_get_true (s : FaceDetection) (a : Nat)
    (hnd : (listAt s s.items_frames).Nodup) (ha : a ∈ listAt s s.items_frames)
    (hlt : a < s.heap.dicts.length) :
    derefDict (get_items_frames s true).1 a = cvtRec (derefDict s a) := by
  rw [get_true_fst, derefDict, derefDict]
  show ((((listAt s s.items_frames).foldl (fun ds a => listModify ds a cvtRec)
      s.heap.dicts)[a]?).getD itemRecDefault) = _
  rw [foldl_listModify_mem _ _ _ _ hnd ha, List.getElem?_eq_getElem hlt]
  rfl

theorem derefItems_get_true (s : FaceDetection) (h : wf s = true) :
    derefItems (get_items_frames s true).1 = (derefItems s).map cvtRec := by
  obtain ⟨h1, h2, h3⟩ := wf_unpack s h
  have hif : (get_items_frames s true).1.items_frames = s.items_frames := by
    rw [get_true_fst]
  rw [derefItems, derefItems, hif, listAt_get_true_old s _ h1, List.map_map]
  exact List.map_congr_left (fun a ha => derefDict_get_true s a h2 ha (h3 a ha))

theorem archiveItemsLoop_length (folder pref : String) (idx : Nat)
    (recs : List ItemRec) :
    (archiveItemsLoop folder pref idx recs).length = recs.length := by
  induction recs generalizing idx with
  | nil => rfl
  | cons r rest ih => simp [archiveItemsLoop, ih]

theorem archiveItemsLoop_getElem? (folder pref : String) (idx : Nat)
    (recs : List ItemRec) (i : Nat) :
    (archiveItemsLoop folder pref idx recs)[i]? =
      (recs[i]?).map
        (fun r => ⟨pathJoin folder (itemImageName pref (idx + i)), r.frame⟩) := by
  induction recs generalizing idx i with
  | nil => rfl
  | cons r rest ih =>
    cases i with
    | zero => simp [archiveItemsLoop]
    | succ j =>
      have hidx : idx + (j + 1) = (idx + 1) + j := by omega
      rw [archiveItemsLoop]
      simp only [List.getElem?_cons_succ]
      rw [ih (idx + 1) j, hidx]

/-! ### Claim theorems -/

/-- C1: the number of crop records built by `extract_items_frames` always
equals the number of stored regions at invocation time; on a freshly
constructed object (before any detection) the region list is empty and zero
crops are produced, with no failure. -/
theorem extract_crop_count_eq_region_count (s : FaceDetection)
    (path folder : String) (dbg : Bool) (t : DateTime) (buf : Buf) :
    (derefItems (extract_items_frames s)).length = s.items.length ∧
    (init path folder dbg t buf).items = [] ∧
    derefItems (extract_items_frames (init path folder dbg t buf)) = [] := by
  refine ⟨?_, rfl, ?_⟩
  · rw [derefItems_extract, cropRecs, List.length_map]
  · rw [derefItems_extract]
    rfl

/-- C2: each crop record built by `extract_items_frames` stores exactly its
source region's x, y, width and height, and its pixel buffer is the slice
`frame[y:y+h, x:x+w]` of the image buffer current at extraction time. -/
theorem extract_crop_fields_and_slice (s : FaceDetection) (i : Nat) (f : Region)
    (hf : s.items[i]? = some f) :
    (derefItems (extract_items_frames s))[i]? =
      some ⟨npSlice2D s.frame f.y (f.y + f.h) f.x (f.x + f.w),
            f.x, f.y, f.w, f.h⟩ := by
  rw [derefItems_extract, cropRecs, List.getElem?_map, hf]
  rfl

theorem extract_crop_fields_and_slice_witness :
    sDetected.items[0]? = some ⟨0, 0, 2, 2⟩ ∧
    (derefItems (extract_items_frames sDetected))[0]? =
      some ⟨npSlice2D sDetected.frame 0 (0 + 2) 0 (0 + 2), 0, 0, 2, 2⟩ :=
  ⟨by decide,
   extract_crop_fields_and_slice sDetected 0 ⟨0, 0, 2, 2⟩ (by decide)⟩

/-- C3: on a service response in which every face exposes at least three
polygon vertices, `find_items` succeeds and rebinds the stored region list to
exactly the tuples `(x1, y1, x2 - x1, y2 - y1)` taken from vertex 0 and vertex
2 of each face bounding polygon, in response order with no re-sorting; the
previous region list is discarded and nothing else in the object changes. -/
theorem find_items_regions (s : FaceDetection) (faces : List Face)
    (h : ∀ face ∈ faces, 3 ≤ face.bounds.vertices.length) :
    find_items s faces = some { s with items := faces.map regionOfFaceD } := by
  have key : itemsOfFaces faces = some (faces.map regionOfFaceD) := by
    induction faces with
    | nil => rfl
    | cons face rest ih =>
      have h0 : 3 ≤ face.bounds.vertices.length := h face (List.mem_cons_self _ _)
      obtain ⟨v0, hv0⟩ : ∃ v, vertexAt face 0 = some v :=
        ⟨_, List.getElem?_eq_getElem (by omega)⟩
      obtain ⟨v2, hv2⟩ : ∃ v, vertexAt face 2 = some v :=
        ⟨_, List.getElem?_eq_getElem (by omega)⟩
      have hface : faceToItem face = some (regionOfFaceD face) := by
        simp [faceToItem, regionOfFaceD, hv0, hv2]
      have hrest := ih (fun f hf => h f (List.mem_cons_of_mem _ hf))
      simp [itemsOfFaces, hface, hrest]
  rw [find_items, key]
  rfl

theorem find_items_regions_witness :
    (∀ face ∈ [faceSample], 3 ≤ face.bounds.vertices.length) ∧
    find_items sInit [faceSample] =
      some { sInit with items := [faceSample].map regionOfFaceD } :=
  ⟨by decide, find_items_regions sInit [faceSample] (by decide)⟩

/-- C4: `add_label text x y` records a single text drawing on the full frame
at `(x + 40, y - 5)` when `y > 11` and at `(x + 40, y)` otherwise (font
`FONT_HERSHEY_SIMPLEX`, scale 1.2, green, thickness 4); at the threshold,
`y = 5` and `y = 11` get no vertical shift while `y = 12` and `y = 50` are
shifted by `-5`. -/
theorem add_label_position (s : FaceDetection) (text : String) (x y : Int) :
    (add_label s text x y).frame_ops = s.frame_ops ++
      [DrawOp.putText text (x + 40, if y > 11 then y - 5 else y)
        FONT_HERSHEY_SIMPLEX 12 (0, 255, 0) 4] ∧
    (add_label s text x 5).frame_ops = s.frame_ops ++
      [DrawOp.putText text (x + 40, 5) FONT_HERSHEY_SIMPLEX 12 (0, 255, 0) 4] ∧
    (add_label s text x 11).frame_ops = s.frame_ops ++
      [DrawOp.putText text (x + 40, 11) FONT_HERSHEY_SIMPLEX 12 (0, 255, 0) 4] ∧
    (add_label s text x 12).frame_ops = s.frame_ops ++
      [DrawOp.putText text (x + 40, 7) FONT_HERSHEY_SIMPLEX 12 (0, 255, 0) 4] ∧
    (add_label s text x 50).frame_ops = s.frame_ops ++
      [DrawOp.putText text (x + 40, 45) FONT_HERSHEY_SIMPLEX 12 (0, 255, 0) 4] := by
  refine ⟨rfl, ?_, ?_, ?_, ?_⟩ <;> norm_num [add_label]

/-- C5: `get_items_frames True` overwrites, in place, the buffer field of
every crop record reachable from the stored list with its single-channel
grayscale conversion, leaves every record's stored x, y, w, h untouched, and
returns a list holding exactly those now-mutated records. -/
theorem get_items_frames_gray_inplace (s : FaceDetection) (h : wf s = true) :
    derefItems (get_items_frames s true).1 = (derefItems s).map cvtRec ∧
    (∀ r ∈ derefItems (get_items_frames s true).1, isGray r.frame = true) ∧
    (derefItems (get_items_frames s true).1).map (fun r => (r.x, r.y, r.w, r.h))
      = (derefItems s).map (fun r => (r.x, r.y, r.w, r.h)) ∧
    listAt (get_items_frames s true).1 (get_items_frames s true).2
      = listAt s s.items_frames := by
  refine ⟨derefItems_get_true s h, ?_, ?_, listAt_get_true_new s⟩
  · intro r hr
    rw [derefItems_get_true s h] at hr
    obtain ⟨r0, _, rfl⟩ := List.mem_map.mp hr
    cases hb : r0.frame with
    | color d => simp [cvtRec, cvtColorBGR2GRAY, hb, isGray]
    | gray d => simp [cvtRec, cvtColorBGR2GRAY, hb, isGray]
  · rw [derefItems_get_true s h, List.map_map]
    exact List.map_congr_left (fun r _ => rfl)

theorem get_items_frames_gray_inplace_witness :
    wf sExtracted = true ∧
    (derefItems (get_items_frames sExtracted true).1
        = (derefItems sExtracted).map cvtRec ∧
      (∀ r ∈ derefItems (get_items_frames sExtracted true).1,
        isGray r.frame = true) ∧
      (derefItems (get_items_frames sExtracted true).1).map
          (fun r => (r.x, r.y, r.w, r.h))
        = (derefItems sExtracted).map (fun r => (r.x, r.y, r.w, r.h)) ∧
      listAt (get_items_frames sExtracted true).1
          (get_items_frames sExtracted true).2
        = listAt sExtracted sExtracted.items_frames) :=
  ⟨by decide, get_items_frames_gray_inplace sExtracted (by decide)⟩

theorem padDigits_length (w n : Nat) : (padDigits w n).length = w := by
  induction w generalizing n with
  | zero => rfl
  | succ k ih => simp [padDigits, ih]

theorem zeroPad_length (w n : Nat) (h : n < 10 ^ w) : (zeroPad w n).length = w := by
  rw [zeroPad, if_pos h]
  show (padDigits w n).length = w
  exact padDigits_length w n

/-- C6: every write goes under the archive folder with a name derived from
the run prefix captured once at construction from the constructor-time clock
in the zero-padded form YYYYMMDD-HHMMSS-ffffff (22 characters for in-range
clock fields); `archive_items_frames` writes the stored crops in list order
to `<pref>_item_<N>.jpg` with N sequential from 0 to crop count minus one,
and `archive_with_items` writes the full frame to `<pref>_full.jpg`. -/
theorem archive_filenames (s : FaceDetection) (path folder : String)
    (dbg : Bool) (t : DateTime) (buf : Buf) (nowStr : String)
    (hy : t.year < 10 ^ 4) (hmo : t.month < 10 ^ 2) (hd : t.day < 10 ^ 2)
    (hh : t.hour < 10 ^ 2) (hmi : t.minute < 10 ^ 2) (hsec : t.second < 10 ^ 2)
    (hus : t.microsecond < 10 ^ 6) :
    (init path folder dbg t buf).images_pref = strftimeFmt t ∧
    (strftimeFmt t).length = 22 ∧
    (archive_items_frames s).writes.length
      = s.writes.length + (derefItems s).length ∧
    (∀ i : Nat, ((archive_items_frames s).writes.drop s.writes.length)[i]? =
      ((derefItems s)[i]?).map (fun r =>
        ⟨pathJoin s.archive_folder (itemImageName s.images_pref i), r.frame⟩)) ∧
    (archive_with_items s nowStr).writes = s.writes ++
      [⟨pathJoin s.archive_folder (s.images_pref ++ "_full.jpg"), s.frame⟩] := by
  have hdash : ("-" : String).length = 1 := rfl
  refine ⟨rfl, ?_, ?_, ?_, rfl⟩
  · rw [strftimeFmt]
    simp only [String.length_append]
    rw [zeroPad_length 4 t.year hy, zeroPad_length 2 t.month hmo,
        zeroPad_length 2 t.day hd, zeroPad_length 2 t.hour hh,
        zeroPad_length 2 t.minute hmi, zeroPad_length 2 t.second hsec,
        zeroPad_length 6 t.microsecond hus, hdash]
  · rw [archive_items_frames]
    show (s.writes ++ _).length = _
    rw [List.length_append, archiveItemsLoop_length]
  · intro i
    rw [archive_items_frames]
    show ((s.writes ++ _).drop s.writes.length)[i]? = _
    rw [List.drop_left, archiveItemsLoop_getElem?, Nat.zero_add]

theorem archive_filenames_witness :
    (tSample.year < 10 ^ 4 ∧ tSample.month < 10 ^ 2 ∧ tSample.day < 10 ^ 2 ∧
      tSample.hour < 10 ^ 2 ∧ tSample.minute < 10 ^ 2 ∧
      tSample.second < 10 ^ 2 ∧ tSample.microsecond < 10 ^ 6) ∧
    ((init "img.jpg" "/tmp/" false tSample bufSample).images_pref
        = strftimeFmt tSample ∧
      (strftimeFmt tSample).length = 22 ∧
      (archive_items_frames sExtracted).writes.length
        = sExtracted.writes.length + (derefItems sExtracted).length ∧
      (∀ i : Nat,
        ((archive_items_frames sExtracted).writes.drop
            sExtracted.writes.length)[i]? =
          ((derefItems sExtracted)[i]?).map (fun r =>
            ⟨pathJoin sExtracted.archive_folder
              (itemImageName sExtracted.images_pref i), r.frame⟩)) ∧
      (archive_with_items sExtracted "Mon Oct 12").writes
        = sExtracted.writes ++
          [⟨pathJoin sExtracted.archive_folder
            (sExtracted.images_pref ++ "_full.jpg"), sExtracted.frame⟩]) :=
  ⟨by decide,
   archive_filenames sExtracted "img.jpg" "/tmp/" false tSample bufSample
    "Mon Oct 12" (by decide) (by decide) (by decide) (by decide) (by decide)
    (by decide) (by decide)⟩

/-- C7: calling the pipeline out of order never fails: with an empty region
list (in particular before any detection) `extract_items_frames` produces an
empty crop list, with an empty crop list `archive_items_frames` performs zero
item writes, and on a freshly constructed object the whole chain degrades
silently on the empty default state. -/
theorem out_of_order_silent (s s2 : FaceDetection) (path folder : String)
    (dbg : Bool) (t : DateTime) (buf : Buf)
    (h : s.items = []) (h2 : derefItems s2 = []) :
    derefItems (extract_items_frames s) = [] ∧
    (archive_items_frames s2).writes = s2.writes ∧
    derefItems (extract_items_frames (init path folder dbg t buf)) = [] ∧
    (archive_items_frames
      (extract_items_frames (init path folder dbg t buf))).writes = [] := by
  refine ⟨?_, ?_, ?_, ?_⟩
  · rw [derefItems_extract, cropRecs, h]
    rfl
  · rw [archive_items_frames, h2]
    simp [archiveItemsLoop]
  · rw [derefItems_extract]
    rfl
  · rfl

theorem out_of_order_silent_witness :
    (sInit.items = [] ∧ derefItems sInit = []) ∧
    (derefItems (extract_items_frames sInit) = [] ∧
      (archive_items_frames sInit).writes = sInit.writes ∧
      derefItems
        (extract_items_frames (init "a.jpg" "/tmp/" false tSample bufSample))
        = [] ∧
      (archive_items_frames
        (extract_items_frames
          (init "a.jpg" "/tmp/" false tSample bufSample))).writes = []) :=
  ⟨⟨by decide, by decide⟩,
   out_of_order_silent sInit sInit "a.jpg" "/tmp/" false tSample bufSample
    (by decide) (by decide)⟩

/-- C8: `get_items_frames False` returns the very list object stored in the
pipeline (the stored address itself, so no copy is made and callers share the
stored records) and leaves the whole object state, including every crop
record in the heap, untouched. -/
theorem get_items_frames_false_nocopy (s : FaceDetection) :
    get_items_frames s false = (s, s.items_frames) ∧
    (get_items_frames s false).1.heap = s.heap ∧
    listAt (get_items_frames s false).1 (get_items_frames s false).2
      = listAt s s.items_frames :=
  ⟨rfl, rfl, rfl⟩

/-- C9: a call to `find_items` can modify only the stored region list: the
image buffer, the drawing trace, the crop-list binding, the heap of crop
records (hence every previously built crop), the run prefix, the write trace
and the constructor parameters are all left as they were. -/
theorem find_items_only_items (s : FaceDetection) (faces : List Face)
    (s1 : FaceDetection) (h : find_items s faces = some s1) :
    s1.frame = s.frame ∧ s1.frame_ops = s.frame_ops ∧
    s1.items_frames = s.items_frames ∧ s1.heap = s.heap ∧
    derefItems s1 = derefItems s ∧ s1.images_pref = s.images_pref ∧
    s1.writes = s.writes ∧ s1.archive_folder = s.archive_folder ∧
    s1.image_path = s.image_path ∧ s1.debug = s.debug := by
  rw [find_items] at h
  cases hi : itemsOfFaces faces with
  | none =>
    rw [hi] at h
    cases h
  | some items =>
    rw [hi] at h
    obtain rfl : { s with items := items } = s1 := Option.some.inj h
    exact ⟨rfl, rfl, rfl, rfl, rfl, rfl, rfl, rfl, rfl, rfl⟩

theorem find_items_only_items_witness :
    find_items sInit [faceSample] = some sFound ∧
    (sFound.frame = sInit.frame ∧ sFound.frame_ops = sInit.frame_ops ∧
      sFound.items_frames = sInit.items_frames ∧ sFound.heap = sInit.heap ∧
      derefItems sFound = derefItems sInit ∧
      sFound.images_pref = sInit.images_pref ∧
      sFound.writes = sInit.writes ∧
      sFound.archive_folder = sInit.archive_folder ∧
      sFound.image_path = sInit.image_path ∧ sFound.debug = sInit.debug) :=
  ⟨by decide, find_items_only_items sInit [faceSample] sFound (by decide)⟩

/-- C10: the list returned by `get_items_frames True` has the same length as
the stored crop list and holds exactly the stored crop records in order (the
very same record objects); the stored list binding survives the call and
afterwards reaches the grayscale-converted records, so a subsequent
`get_items_frames False` returns that stored list and observes them. -/
theorem get_items_frames_true_returns_stored (s : FaceDetection)
    (h : wf s = true) :
    listAt (get_items_frames s true).1 (get_items_frames s true).2
      = listAt s s.items_frames ∧
    (listAt (get_items_frames s true).1 (get_items_frames s true).2).length
      = (listAt s s.items_frames).length ∧
    (get_items_frames s true).1.items_frames = s.items_frames ∧
    derefItems (get_items_frames s true).1 = (derefItems s).map cvtRec ∧
    get_items_frames (get_items_frames s true).1 false
      = ((get_items_frames s true).1, s.items_frames) :=
  ⟨listAt_get_true_new s, by rw [listAt_get_true_new s], rfl,
   derefItems_get_true s h, rfl⟩

theorem get_items_frames_true_returns_stored_witness :
    wf sExtracted = true ∧
    (listAt (get_items_frames sExtracted true).1
        (get_items_frames sExtracted true).2
      = listAt sExtracted sExtracted.items_frames ∧
    (listAt (get_items_frames sExtracted true).1
        (get_items_frames sExtracted true).2).length
      = (listAt sExtracted sExtracted.items_frames).length ∧
    (get_items_frames sExtracted true).1.items_frames
      = sExtracted.items_frames ∧
    derefItems (get_items_frames sExtracted true).1
      = (derefItems sExtracted).map cvtRec ∧
    get_items_frames (get_items_frames sExtracted true).1 false
      = ((get_items_frames sExtracted true).1, sExtracted.items_frames)) :=
  ⟨by decide, get_items_frames_true_returns_stored sExtracted (by decide)⟩

end FaceReco
